import Mathlib

/-!
Verification development for the HA-Goodtop repository.

The repository is a Home Assistant integration (custom_components/goodtop)
plus a standalone script (office_switch.py) that scrape the web interface
of a Goodtop PoE switch.  This file gives a shallow embedding of the
relevant Python code:

* pure string helpers model the Python string operations used by the code;
* the MD5 algorithm is implemented over byte lists (Nat valued, reduced
  mod 2^32 where overflow matters) to model hashlib.md5;
* the fixed regular expressions of the code are implemented as
  deterministic scanners over character lists (each of the concrete
  patterns used by the code backtracks trivially, so a direct scanner has
  the same semantics as the Python re module on them);
* network I/O is modelled by passing in explicit per-page outcomes
  (transport failure, or a status code together with a body); a fetch over
  the network becomes a pure function of those outcomes;
* Python dicts are modelled as association lists with in-place update,
  which preserves both key uniqueness and insertion order.
-/

namespace Goodtop

/-- Python ASCII whitespace, the set matched by the regex class \s and
stripped by str.strip() for the ASCII inputs appearing here. -/
def pyIsSpace (c : Char) : Bool :=
  c == ' ' || c == '\t' || c == '\n' || c == '\x0d' || c == '\x0b' || c == '\x0c'

/-- Decimal digit test, the regex class \d restricted to ASCII. -/
def pyIsDigit (c : Char) : Bool :=
  '0' ≤ c && c ≤ '9'

/-- ASCII word character, the regex class \w restricted to ASCII. -/
def pyIsWord (c : Char) : Bool :=
  pyIsDigit c || ('a' ≤ c && c ≤ 'z') || ('A' ≤ c && c ≤ 'Z') || c == '_'

/-- ASCII lower-casing of one character, as str.lower() acts on the ASCII
range. -/
def asciiLower (c : Char) : Char :=
  if 'A' ≤ c && c ≤ 'Z' then Char.ofNat (c.toNat + 32) else c

/-- ASCII upper-casing of one character, as str.upper() acts on the ASCII
range. -/
def asciiUpper (c : Char) : Char :=
  if 'a' ≤ c && c ≤ 'z' then Char.ofNat (c.toNat - 32) else c

/-- Model of str.lower() (ASCII range). -/
def pyLower (s : String) : String :=
  ⟨s.data.map asciiLower⟩

/-- Model of str.upper() (ASCII range). -/
def pyUpper (s : String) : String :=
  ⟨s.data.map asciiUpper⟩

/-- Model of str.strip(): drop whitespace from both ends. -/
def pyStrip (l : List Char) : List Char :=
  ((l.dropWhile pyIsSpace).reverse.dropWhile pyIsSpace).reverse

/-- Value of a list of decimal digit characters, as Python int(). -/
def natOfDigits (l : List Char) : Nat :=
  l.foldl (fun a c => a * 10 + (c.toNat - 48)) 0

/-- Does the first list start with the second one (case sensitive)? -/
def startsW : List Char → List Char → Bool
  | _, [] => true
  | [], _ :: _ => false
  | c :: cs, p :: ps => c == p && startsW cs ps

/-- Does the first list start with the second one, compared after ASCII
lower-casing (regex IGNORECASE)? -/
def startsWCI : List Char → List Char → Bool
  | _, [] => true
  | [], _ :: _ => false
  | c :: cs, p :: ps => asciiLower c == asciiLower p && startsWCI cs ps

/-- Model of the Python substring test (the in operator on str). -/
def hasSub : List Char → List Char → Bool
  | hay, needle =>
    if startsW hay needle then true
    else
      match hay with
      | [] => false
      | _ :: t => hasSub t needle

/-- Match a literal token, returning the rest of the input. -/
def lit (pat : List Char) (l : List Char) : Option (List Char) :=
  if startsW l pat then some (l.drop pat.length) else none

/-- Match a literal token case-insensitively, returning the rest. -/
def litCI (pat : List Char) (l : List Char) : Option (List Char) :=
  if startsWCI l pat then some (l.drop pat.length) else none

/-- Greedy nonempty character-class run (a regex class followed by +);
fails on an empty run. -/
def takeRun (p : Char → Bool) (l : List Char) : Option (List Char × List Char) :=
  let r := l.takeWhile p
  if r.isEmpty then none else some (r, l.dropWhile p)

/-- Greedy possibly-empty whitespace run (the regex \s* ). -/
def skipWs (l : List Char) : List Char :=
  l.dropWhile pyIsSpace

end Goodtop

namespace Goodtop.MD5

/-- Reduction modulo 2^32, the word size of MD5. -/
def m32 (x : Nat) : Nat := x % 4294967296

/-- 32-bit left rotation (input assumed < 2^32). -/
def rotl32 (x n : Nat) : Nat :=
  m32 (x <<< n) ||| (x >>> (32 - n))

/-- The 64 sine-derived constants of MD5 (RFC 1321 table T). -/
def K : List Nat :=
  [0xd76aa478, 0xe8c7b756, 0x242070db, 0xc1bdceee,
   0xf57c0faf, 0x4787c62a, 0xa8304613, 0xfd469501,
   0x698098d8, 0x8b44f7af, 0xffff5bb1, 0x895cd7be,
   0x6b901122, 0xfd987193, 0xa679438e, 0x49b40821,
   0xf61e2562, 0xc040b340, 0x265e5a51, 0xe9b6c7aa,
   0xd62f105d, 0x02441453, 0xd8a1e681, 0xe7d3fbc8,
   0x21e1cde6, 0xc33707d6, 0xf4d50d87, 0x455a14ed,
   0xa9e3e905, 0xfcefa3f8, 0x676f02d9, 0x8d2a4c8a,
   0xfffa3942, 0x8771f681, 0x6d9d6122, 0xfde5380c,
   0xa4beea44, 0x4bdecfa9, 0xf6bb4b60, 0xbebfbc70,
   0x289b7ec6, 0xeaa127fa, 0xd4ef3085, 0x04881d05,
   0xd9d4d039, 0xe6db99e5, 0x1fa27cf8, 0xc4ac5665,
   0xf4292244, 0x432aff97, 0xab9423a7, 0xfc93a039,
   0x655b59c3, 0x8f0ccc92, 0xffeff47d, 0x85845dd1,
   0x6fa87e4f, 0xfe2ce6e0, 0xa3014314, 0x4e0811a1,
   0xf7537e82, 0xbd3af235, 0x2ad7d2bb, 0xeb86d391]

/-- The per-round left-rotation amounts of MD5. -/
def S : List Nat :=
  [7, 12, 17, 22, 7, 12, 17, 22, 7, 12, 17, 22, 7, 12, 17, 22,
   5, 9, 14, 20, 5, 9, 14, 20, 5, 9, 14, 20, 5, 9, 14, 20,
   4, 11, 16, 23, 4, 11, 16, 23, 4, 11, 16, 23, 4, 11, 16, 23,
   6, 10, 15, 21, 6, 10, 15, 21, 6, 10, 15, 21, 6, 10, 15, 21]

/-- Bitwise complement within 32 bits. -/
def not32 (x : Nat) : Nat := 4294967295 ^^^ x

/-- MD5 padding: append 0x80, zero bytes to 56 mod 64, then the bit
length as 8 little-endian bytes. -/
def pad (msg : List Nat) : List Nat :=
  let lenBits := (msg.length * 8) % 18446744073709551616
  let zeros := (55 + 64 - msg.length % 64) % 64
  msg ++ [0x80] ++ List.replicate zeros 0 ++
    (List.range 8).map (fun i => (lenBits >>> (8 * i)) % 256)

/-- Split a byte list into chunks of 64. -/
def chunks64 : Nat → List Nat → List (List Nat)
  | 0, _ => []
  | _ + 1, [] => []
  | fuel + 1, l => l.take 64 :: chunks64 fuel (l.drop 64)

/-- Decode a 64-byte chunk into 16 little-endian 32-bit words. -/
def words16 (chunk : List Nat) : List Nat :=
  (List.range 16).map fun j =>
    (chunk.getD (4 * j) 0) + (chunk.getD (4 * j + 1) 0) <<< 8 +
    (chunk.getD (4 * j + 2) 0) <<< 16 + (chunk.getD (4 * j + 3) 0) <<< 24

/-- One MD5 round: index i, message words m, state (a, b, c, d). -/
def round (m : List Nat) (st : Nat × Nat × Nat × Nat) (i : Nat) :
    Nat × Nat × Nat × Nat :=
  let (a, b, c, d) := st
  let f :=
    if i < 16 then (b &&& c) ||| (not32 b &&& d)
    else if i < 32 then (d &&& b) ||| (not32 d &&& c)
    else if i < 48 then b ^^^ c ^^^ d
    else c ^^^ (b ||| not32 d)
  let g :=
    if i < 16 then i
    else if i < 32 then (5 * i + 1) % 16
    else if i < 48 then (3 * i + 5) % 16
    else (7 * i) % 16
  let f := m32 (f + a + K.getD i 0 + m.getD g 0)
  (d, m32 (b + rotl32 f (S.getD i 0)), b, c)

/-- Process one 64-byte chunk, updating the running state. -/
def processChunk (st : Nat × Nat × Nat × Nat) (chunk : List Nat) :
    Nat × Nat × Nat × Nat :=
  let m := words16 chunk
  let (a0, b0, c0, d0) := st
  let (a, b, c, d) := (List.range 64).foldl (round m) st
  (m32 (a0 + a), m32 (b0 + b), m32 (c0 + c), m32 (d0 + d))

/-- MD5 core: bytes in, final four-word state out. -/
def core (msg : List Nat) : Nat × Nat × Nat × Nat :=
  let padded := pad msg
  (chunks64 (padded.length / 64) padded).foldl processChunk
    (0x67452301, 0xefcdab89, 0x98badcfe, 0x10325476)

/-- A 32-bit word as four little-endian bytes. -/
def wordLE (w : Nat) : List Nat :=
  [w % 256, (w >>> 8) % 256, (w >>> 16) % 256, (w >>> 24) % 256]

/-- The 16 digest bytes of MD5: the four state words, each rendered
little-endian. -/
def digest (msg : List Nat) : List Nat :=
  wordLE (core msg).1 ++ wordLE (core msg).2.1 ++
  wordLE (core msg).2.2.1 ++ wordLE (core msg).2.2.2

/-- Lowercase hexadecimal digit for a value below 16. -/
def hexDigit (n : Nat) : Char :=
  if n < 10 then Char.ofNat (48 + n) else Char.ofNat (87 + n)

/-- Model of hashlib hexdigest(): 16 bytes as 32 lowercase hex chars. -/
def hexdigest (msg : List Nat) : String :=
  ⟨(digest msg).flatMap fun b => [hexDigit (b / 16), hexDigit (b % 16)]⟩

end Goodtop.MD5

namespace Goodtop

/-- UTF-8 encoding of one character (Python str.encode()). -/
def utf8Char (c : Char) : List Nat :=
  let n := c.toNat
  if n < 0x80 then [n]
  else if n < 0x800 then
    [0xC0 ||| (n >>> 6), 0x80 ||| (n &&& 0x3F)]
  else if n < 0x10000 then
    [0xE0 ||| (n >>> 12), 0x80 ||| ((n >>> 6) &&& 0x3F), 0x80 ||| (n &&& 0x3F)]
  else
    [0xF0 ||| (n >>> 18), 0x80 ||| ((n >>> 12) &&& 0x3F),
     0x80 ||| ((n >>> 6) &&& 0x3F), 0x80 ||| (n &&& 0x3F)]

/-- UTF-8 bytes of a string (Python str.encode() with default encoding). -/
def strBytes (s : String) : List Nat :=
  s.data.flatMap utf8Char

end Goodtop

namespace Goodtop

/-- API client state, the fields set by GoodtopApiClient.__init__. -/
structure Client where
  host : String
  username : String
  password : String
  cookie : String
deriving DecidableEq

/-- GoodtopApiClient._generate_cookie: MD5 hexdigest of the UTF-8 bytes of
username concatenated with password (the Python f-string
f"{self.username}{self.password}" followed by .encode()). -/
def generate_cookie (username password : String) : String :=
  MD5.hexdigest (strBytes (username ++ password))

/-- Python str.rstrip("/"): drop all trailing slash characters. -/
def rstripSlash (l : List Char) : List Char :=
  (l.reverse.dropWhile (fun c => c == '/')).reverse

/-- Host normalisation done by GoodtopApiClient.__init__. -/
def normHost (host : String) : String :=
  let h : List Char := rstripSlash host.data
  if startsW h ("http".data) then ⟨h⟩ else "http://" ++ ⟨h⟩

/-- GoodtopApiClient.__init__. -/
def mkClient (host username password : String) : Client :=
  { host := normHost host
    username := username
    password := password
    cookie := generate_cookie username password }

/-- Data for a single port (the PortData dataclass). -/
structure PortData where
  id : Nat
  state : String
  link : String
  tx_good : Nat := 0
  tx_bad : Nat := 0
  rx_good : Nat := 0
  rx_bad : Nat := 0
  poe_enabled : Bool := false
  speed_duplex : String := "0"
  flow_control : String := "0"
  connected_macs : List String := []
deriving DecidableEq

/-- A Python dict from port number to PortData, modelled as an
association list with unique keys kept in insertion order. -/
def Ports := List (Nat × PortData)
deriving DecidableEq

/-- Dict lookup (dict.get / the in operator). -/
def dictGet : Ports → Nat → Option PortData
  | [], _ => none
  | (k, v) :: t, a => if k = a then some v else dictGet t a

/-- Dict membership as a Bool. -/
def dictMemB (d : Ports) (a : Nat) : Bool :=
  (dictGet d a).isSome

/-- Dict assignment d[k] = v: replace in place when the key exists,
append otherwise (Python dicts preserve insertion order). -/
def dictSet : Ports → Nat → PortData → Ports
  | [], k, v => [(k, v)]
  | (k', v') :: t, k, v =>
    if k' = k then (k', v) :: t else (k', v') :: dictSet t k v

/-- The keys of the dict, in order. -/
def dictKeys (d : Ports) : List Nat :=
  d.map Prod.fst

/-- The number of entries of the dict. -/
def dictSize (d : Ports) : Nat :=
  d.length

/-- The aggregate snapshot (the GoodtopData dataclass). -/
structure GoodtopData where
  model : String := ""
  mac_address : String := ""
  ip_address : String := ""
  firmware_version : String := ""
  hardware_version : String := ""
  poe_total_watts : ℚ := 0
  ports : Ports := []
deriving DecidableEq

/-- The all-default snapshot GoodtopData(). -/
def GoodtopData.init : GoodtopData := {}

/-- Outcome of one HTTP request: a transport-level exception, or a
status code together with the response body. -/
inductive FetchResult where
  | fail
  | ok (status : Nat) (body : String)
deriving DecidableEq

/-- The body of a response if and only if its status is 200, the guard
used by every page fetch. -/
def page200 : FetchResult → Option String
  | .fail => none
  | .ok s b => if s = 200 then some b else none

end Goodtop

namespace Goodtop

/-- Generic model of re.finditer for a matcher that consumes at least one
character per match: try the matcher at every position from the left,
emitting a match and resuming after it, or advancing one character.  The
fuel starts at the input length, which bounds the number of iterations
since every branch shortens the input. -/
def findAux {α : Type} (step : List Char → Option (α × List Char)) :
    Nat → List Char → List α
  | 0, _ => []
  | _ + 1, [] => []
  | fuel + 1, l =>
    match step l with
    | some (a, rem) => a :: findAux step fuel rem
    | none => findAux step fuel l.tail

/-- All matches of a matcher over an input (re.finditer / re.findall). -/
def findAll {α : Type} (step : List Char → Option (α × List Char))
    (l : List Char) : List α :=
  findAux step l.length l

/-- Generic model of re.search: the first position at which the matcher
succeeds, scanning left to right (the end-of-input position included). -/
def searchAux {α : Type} (step : List Char → Option α) :
    Nat → List Char → Option α
  | 0, l => step l
  | fuel + 1, l =>
    match step l with
    | some a => some a
    | none =>
      match l with
      | [] => none
      | _ :: t => searchAux step fuel t

/-- First match of a matcher over an input (re.search). -/
def searchFirst {α : Type} (step : List Char → Option α)
    (l : List Char) : Option α :=
  searchAux step l.length l


/-- One token of a concrete regular expression as used by the code.
Every pattern in the repository is a sequence of literals, of \s* gaps,
of greedy character-class runs, and of the two-token idiom class* then a
literal excluded by the class; on such patterns the backtracking
semantics of the Python re module coincides with greedy scanning, so a
pattern is faithfully represented by a token list. -/
inductive RTok where
  | lit (pat : List Char)
  | litCI (pat : List Char)
  | ws
  | cap (cls : Char → Bool)
  | star (cls : Char → Bool)

/-- Run a token list at the start of the input, returning the list of
captured groups in order and the rest of the input. -/
def runPat : List RTok → List Char → Option (List (List Char) × List Char)
  | [], l => some ([], l)
  | .lit p :: ts, l =>
    match lit p l with
    | some l2 => runPat ts l2
    | none => none
  | .litCI p :: ts, l =>
    match litCI p l with
    | some l2 => runPat ts l2
    | none => none
  | .ws :: ts, l => runPat ts (skipWs l)
  | .cap cls :: ts, l =>
    match takeRun cls l with
    | some (g, l2) =>
      match runPat ts l2 with
      | some (gs, rem) => some (g :: gs, rem)
      | none => none
    | none => none
  | .star cls :: ts, l => runPat ts (l.dropWhile cls)

/-- Character class [^<] of the table-cell patterns. -/
def notLt (c : Char) : Bool := !(c == '<')

/-- Character class [^>] of the _extract_value pattern. -/
def notGt (c : Char) : Bool := !(c == '>')

/-- One row match of the port-statistics regex of
GoodtopApiClient._fetch_port_stats (the raw capture groups, with the port
number already extracted from group 1 the way the code does with a
re.search for a digit run inside the group). -/
structure RawRow where
  pid : Nat
  state : List Char
  link : List Char
  txGood : Nat
  txBad : Nat
  rxGood : Nat
  rxBad : Nat
deriving DecidableEq

/-- The statistics-row pattern of _fetch_port_stats:
<tr>\s*<td>(Port\s*\d+)</td>\s*<td>([^<]+)</td>\s*<td>([^<]+)</td>\s*
then four cells <td>(\d+)</td> separated by \s*.  Group 1 is split into
its literal part and its digit run, so the digits form the first
captured group here. -/
def statsPat : List RTok :=
  [.lit ("<tr>".data), .ws, .lit ("<td>".data), .lit ("Port".data), .ws,
   .cap pyIsDigit, .lit ("</td>".data), .ws,
   .lit ("<td>".data), .cap notLt, .lit ("</td>".data), .ws,
   .lit ("<td>".data), .cap notLt, .lit ("</td>".data), .ws,
   .lit ("<td>".data), .cap pyIsDigit, .lit ("</td>".data), .ws,
   .lit ("<td>".data), .cap pyIsDigit, .lit ("</td>".data), .ws,
   .lit ("<td>".data), .cap pyIsDigit, .lit ("</td>".data), .ws,
   .lit ("<td>".data), .cap pyIsDigit, .lit ("</td>".data)]

/-- The statistics-row pattern matched at the start of the input. -/
def matchStatsRowAt (l0 : List Char) : Option (RawRow × List Char) :=
  match runPat statsPat l0 with
  | some (gs, rem) =>
    some ({ pid := natOfDigits (gs.getD 0 [])
            state := gs.getD 1 []
            link := gs.getD 2 []
            txGood := natOfDigits (gs.getD 3 [])
            txBad := natOfDigits (gs.getD 4 [])
            rxGood := natOfDigits (gs.getD 5 [])
            rxBad := natOfDigits (gs.getD 6 []) }, rem)
  | none => none

/-- All statistics rows of a page body, in order (re.finditer). -/
def findStatsRows (html : String) : List RawRow :=
  findAll matchStatsRowAt html.data

/-- One row match of the MAC-table regex of
GoodtopApiClient._fetch_mac_table. -/
structure MacRow where
  idx : Nat
  mac : List Char
  vlan : Nat
  typ : List Char
  port : Nat
deriving DecidableEq

/-- Character class [0-9A-Fa-f:] of the MAC-table pattern. -/
def pyIsMacChar (c : Char) : Bool :=
  pyIsDigit c || ('a' ≤ c && c ≤ 'f') || ('A' ≤ c && c ≤ 'F') || c == ':'

/-- The MAC-table row pattern of _fetch_mac_table:
<tr>\s*<td\s*>(\d+)</td>\s*<td\s*>([0-9A-Fa-f:]+)</td>\s*<td\s*>(\d+)</td>
\s*<td\s*>(\w+)</td>\s*<td\s*>(\d+)</td>\s*</tr>. -/
def macPat : List RTok :=
  [.lit ("<tr>".data), .ws,
   .lit ("<td".data), .ws, .lit (">".data), .cap pyIsDigit,
   .lit ("</td>".data), .ws,
   .lit ("<td".data), .ws, .lit (">".data), .cap pyIsMacChar,
   .lit ("</td>".data), .ws,
   .lit ("<td".data), .ws, .lit (">".data), .cap pyIsDigit,
   .lit ("</td>".data), .ws,
   .lit ("<td".data), .ws, .lit (">".data), .cap pyIsWord,
   .lit ("</td>".data), .ws,
   .lit ("<td".data), .ws, .lit (">".data), .cap pyIsDigit,
   .lit ("</td>".data), .ws, .lit ("</tr>".data)]

/-- The MAC-table row pattern matched at the start of the input. -/
def matchMacRowAt (l0 : List Char) : Option (MacRow × List Char) :=
  match runPat macPat l0 with
  | some (gs, rem) =>
    some ({ idx := natOfDigits (gs.getD 0 [])
            mac := gs.getD 1 []
            vlan := natOfDigits (gs.getD 2 [])
            typ := gs.getD 3 []
            port := natOfDigits (gs.getD 4 []) }, rem)
  | none => none

/-- All MAC-table rows of a page body, in order. -/
def findMacRows (html : String) : List MacRow :=
  findAll matchMacRowAt html.data

/-- The label/value pattern of GoodtopApiClient._extract_value for a
given label, compiled with re.IGNORECASE:
<th[^>]*>LABEL</th>\s*<td[^>]*>([^<]+)</td>. -/
def extractPat (lab : List Char) : List RTok :=
  [.litCI ("<th".data), .star notGt, .lit (">".data),
   .litCI lab, .litCI ("</th>".data), .ws,
   .litCI ("<td".data), .star notGt, .lit (">".data),
   .cap notLt, .litCI ("</td>".data)]

/-- The label/value pattern matched at the start of the input. -/
def matchExtractAt (lab : List Char) (l0 : List Char) : Option (List Char) :=
  match runPat (extractPat lab) l0 with
  | some (gs, _) => some (gs.getD 0 [])
  | none => none

/-- GoodtopApiClient._extract_value: first match of the label pattern,
group 1 stripped, or the empty string when the pattern is absent. -/
def extract_value (html : String) (label : String) : String :=
  match searchFirst (matchExtractAt label.data) html.data with
  | some g => ⟨pyStrip g⟩
  | none => ""

/-- Character class [\d.] of the PoE wattage pattern. -/
def pyIsFloatChar (c : Char) : Bool :=
  pyIsDigit c || c == '.'

/-- The PoE wattage pattern of _fetch_poe_system:
name="pse_con_pwr" value="([\d.]+)". -/
def pwrPat : List RTok :=
  [.lit ("name=\"pse_con_pwr\" value=\"".data), .cap pyIsFloatChar,
   .lit ("\"".data)]

/-- The PoE wattage pattern matched at the start of the input. -/
def matchPwrAt (l0 : List Char) : Option (List Char) :=
  match runPat pwrPat l0 with
  | some (gs, _) => some (gs.getD 0 [])
  | none => none

/-- re.search of the PoE wattage pattern over a page body. -/
def searchPwr (html : String) : Option (List Char) :=
  searchFirst matchPwrAt html.data

/-- Model of Python float() on the strings the wattage regex can
capture (digits and dots): at most one dot and at least one character
besides a lone dot, rendered as an exact rational; anything else raises
ValueError, modelled as none. -/
def pyFloat (g : List Char) : Option ℚ :=
  if !(g.all fun c => pyIsFloatChar c) then none
  else if g.count '.' == 0 then
    if g.isEmpty then none else some ((natOfDigits g : ℚ))
  else if g.count '.' == 1 then
    let a := g.takeWhile (fun c => !(c == '.'))
    let b := (g.dropWhile (fun c => !(c == '.'))).drop 1
    if a.isEmpty && b.isEmpty then none
    else some ((natOfDigits a : ℚ) + (natOfDigits b : ℚ) / ((10 : ℚ) ^ b.length))
  else none

end Goodtop

namespace Goodtop

/-- The per-port regex searches of _fetch_port_settings and
_fetch_poe_ports, abstracted as functions of the page body and the port
number.  The code interpolates the port number into a non-anchored
IGNORECASE/DOTALL pattern and re.search-es the whole document; no claim
depends on the content of those searches, only on the control flow
around them, so the searches are parameters of the embedding and all
theorems hold for every choice of them. -/
structure Oracles where
  speedFind : String → Nat → Option String
  flowFind : String → Nat → Option String
  poeEnableSeen : String → Nat → Bool
  poeDisableSeen : String → Nat → Bool

/-- The network outcomes of the six page fetches performed by
GoodtopApiClient.get_data (the login POST issued by _fetch_mac_table has
its result ignored by the code and so does not appear). -/
structure Net where
  info : FetchResult
  pse : FetchResult
  stats : FetchResult
  settings : FetchResult
  psePorts : FetchResult
  mac : FetchResult
deriving DecidableEq

/-- GoodtopApiClient._fetch_system_info: on a 200 response set the five
identity fields via _extract_value, otherwise (non-200 status or
exception, both caught) leave the snapshot unchanged. -/
def fetch_system_info (res : FetchResult) (d : GoodtopData) : GoodtopData :=
  match page200 res with
  | some html =>
    { d with
      model := extract_value html "Device Model"
      mac_address := extract_value html "MAC Address"
      ip_address := extract_value html "IP Address"
      firmware_version := extract_value html "Firmware Version"
      hardware_version := extract_value html "Hardware Version" }
  | none => d

/-- The wattage value _fetch_poe_system would assign: a 200 body whose
regex matches and whose captured group survives float().  A float()
ValueError is raised after the regex lookup and caught by the same
handler as a transport error, so it yields no assignment. -/
def pseYields (res : FetchResult) : Option ℚ :=
  (page200 res).bind fun html => (searchPwr html).bind pyFloat

/-- GoodtopApiClient._fetch_poe_system. -/
def fetch_poe_system (res : FetchResult) (d : GoodtopData) : GoodtopData :=
  match pseYields res with
  | some q => { d with poe_total_watts := q }
  | none => d

/-- The PortData built for one statistics row: the remaining fields keep
the dataclass defaults. -/
def portOfRow (r : RawRow) : PortData :=
  { id := r.pid
    state := ⟨pyStrip r.state⟩
    link := ⟨pyStrip r.link⟩
    tx_good := r.txGood
    tx_bad := r.txBad
    rx_good := r.rxGood
    rx_bad := r.rxBad }

/-- One iteration of the row loop of _fetch_port_stats:
data.ports[port_id] = PortData(...). -/
def statsStep (dp : Ports) (r : RawRow) : Ports :=
  dictSet dp r.pid (portOfRow r)

/-- GoodtopApiClient._fetch_port_stats: on a 200 response insert one
PortData per regex row match, otherwise leave the snapshot unchanged. -/
def fetch_port_stats (res : FetchResult) (d : GoodtopData) : GoodtopData :=
  match page200 res with
  | some html => { d with ports := (findStatsRows html).foldl statsStep d.ports }
  | none => d

/-- The statistics rows a fetch outcome yields. -/
def statsRowsOf (res : FetchResult) : List RawRow :=
  match page200 res with
  | some html => findStatsRows html
  | none => []

/-- The port numbers of those rows. -/
def statsPidsOf (res : FetchResult) : List Nat :=
  (statsRowsOf res).map RawRow.pid

/-- The body of the per-port loop of _fetch_port_settings: overwrite
speed_duplex and flow_control of the existing entry whenever the
corresponding search succeeds. -/
def settingsUpd (or : Oracles) (html : String) (kv : Nat × PortData) :
    Nat × PortData :=
  let p := kv.2
  let p :=
    match or.speedFind html kv.1 with
    | some v => { p with speed_duplex := v }
    | none => p
  let p :=
    match or.flowFind html kv.1 with
    | some v => { p with flow_control := v }
    | none => p
  (kv.1, p)

/-- GoodtopApiClient._fetch_port_settings: iterate over the existing
port entries, updating each in place; ports absent from the mapping are
never touched since the loop ranges over data.ports itself. -/
def fetch_port_settings (or : Oracles) (res : FetchResult) (d : GoodtopData) :
    GoodtopData :=
  match page200 res with
  | some html => { d with ports := d.ports.map (settingsUpd or html) }
  | none => d

/-- The body of the per-port loop of _fetch_poe_ports: set poe_enabled
from the Enable/Disable searches (the two portid patterns the code also
builds are dead stores and do not appear). -/
def poeUpd (or : Oracles) (html : String) (kv : Nat × PortData) :
    Nat × PortData :=
  let p := kv.2
  let p :=
    if or.poeEnableSeen html kv.1 then { p with poe_enabled := true }
    else if or.poeDisableSeen html kv.1 then { p with poe_enabled := false }
    else p
  (kv.1, p)

/-- GoodtopApiClient._fetch_poe_ports. -/
def fetch_poe_ports (or : Oracles) (res : FetchResult) (d : GoodtopData) :
    GoodtopData :=
  match page200 res with
  | some html => { d with ports := d.ports.map (poeUpd or html) }
  | none => d

/-- One iteration of the row loop of _fetch_mac_table: upper-case the
MAC, and if the row's port number is an existing key append the MAC to
that entry's list unless already present; otherwise do nothing. -/
def macStep (dp : Ports) (row : MacRow) : Ports :=
  match dictGet dp row.port with
  | some p =>
    let m : String := pyUpper ⟨row.mac⟩
    if p.connected_macs.contains m then dp
    else dictSet dp row.port { p with connected_macs := p.connected_macs ++ [m] }
  | none => dp

/-- GoodtopApiClient._fetch_mac_table: the code first POSTs a login whose
result is ignored, then on a 200 response folds the row loop over the
regex matches. -/
def fetch_mac_table (res : FetchResult) (d : GoodtopData) : GoodtopData :=
  match page200 res with
  | some html => { d with ports := (findMacRows html).foldl macStep d.ports }
  | none => d

/-- GoodtopApiClient.get_data: start from the all-default snapshot and
apply the six page fetches in order.  Each helper catches every
exception internally, so this function models the method on every
combination of outcomes and there is no raising path. -/
def get_data (or : Oracles) (net : Net) : GoodtopData :=
  let d := GoodtopData.init
  let d := fetch_system_info net.info d
  let d := fetch_poe_system net.pse d
  let d := fetch_port_stats net.stats d
  let d := fetch_port_settings or net.settings d
  let d := fetch_poe_ports or net.psePorts d
  fetch_mac_table net.mac d

/-- GoodtopApiClient.test_connection: true exactly on a 200 response
whose body contains "Device Model" or "MAC Address"; every exception is
caught and yields false. -/
def test_connection (res : FetchResult) : Bool :=
  match page200 res with
  | some text =>
    hasSub text.data ("Device Model".data) || hasSub text.data ("MAC Address".data)
  | none => false

end Goodtop

namespace Goodtop

/-- One outgoing HTTP POST of a mutation call: target host, CGI path and
form body in field order. -/
structure Request where
  host : String
  path : String
  body : List (String × String)
deriving DecidableEq

/-- The network outcomes of one mutation call: the login POST (result
ignored by the code), the mutation POST, and the save POST (result
ignored by the code). -/
structure MutNet where
  loginRes : FetchResult
  postRes : FetchResult
  saveRes : FetchResult
deriving DecidableEq

/-- The login form of GoodtopApiClient._login. -/
def loginBody (c : Client) : List (String × String) :=
  [("username", c.username), ("password", c.password), ("language", "EN"),
   ("Response", c.cookie)]

/-- The save form of GoodtopApiClient._save_settings. -/
def saveBody : List (String × String) :=
  [("language", "EN"), ("cmd", "save")]

/-- The form body of the set_poe POST.  The code posts
str(port_id - 1) as portid, commented "Switch uses 0-indexed port IDs". -/
def set_poe_body (port_id : Int) (enabled : Bool) : List (String × String) :=
  [("portid", toString (port_id - 1)),
   ("state", if enabled then "1" else "0"),
   ("submit", "apply"), ("cmd", "poe"), ("language", "EN")]

/-- GoodtopApiClient.set_poe, returning its Bool result and the ordered
trace of POSTs it issues.  The login result is ignored; on a 200 from
the mutation POST the save POST is issued (its own result is ignored,
_save_settings catching every exception itself) and the call returns
True; on any other status or a transport error the call returns False
and no save POST is issued. -/
def set_poe (c : Client) (net : MutNet) (port_id : Int) (enabled : Bool) :
    Bool × List Request :=
  let tr := [⟨c.host, "/login.cgi", loginBody c⟩,
             ⟨c.host, "/pse_port.cgi", set_poe_body port_id enabled⟩]
  match page200 net.postRes with
  | some _ => (true, tr ++ [⟨c.host, "/save.cgi", saveBody⟩])
  | none => (false, tr)

/-- The form body of the set_port_state POST (no language field here). -/
def set_port_state_body (port_id : Int) (enabled : Bool)
    (speed_duplex flow_control : String) : List (String × String) :=
  [("portid", toString (port_id - 1)),
   ("state", if enabled then "1" else "0"),
   ("speed_duplex", speed_duplex), ("flow", flow_control),
   ("submit", "+++Apply+++"), ("cmd", "port")]

/-- GoodtopApiClient.set_port_state, with the same control flow as
set_poe but posting to /port.cgi. -/
def set_port_state (c : Client) (net : MutNet) (port_id : Int)
    (enabled : Bool) (speed_duplex flow_control : String) :
    Bool × List Request :=
  let tr := [⟨c.host, "/login.cgi", loginBody c⟩,
             ⟨c.host, "/port.cgi",
              set_port_state_body port_id enabled speed_duplex flow_control⟩]
  match page200 net.postRes with
  | some _ => (true, tr ++ [⟨c.host, "/save.cgi", saveBody⟩])
  | none => (false, tr)

/-- Number of save POSTs in a trace. -/
def countSaves (tr : List Request) : Nat :=
  (tr.filter fun r => r.path == "/save.cgi").length

/-- First value of a form field in a body (dict lookup on the form). -/
def fieldVal (body : List (String × String)) (k : String) : Option String :=
  (body.find? fun kv => kv.1 == k).map Prod.snd

/-- The in-memory state visible to a mutation call: the client object
and whatever snapshot the coordinator last fetched. -/
structure Mem where
  client : Client
  snapshot : Option GoodtopData
deriving DecidableEq

/-- set_poe as a transformer of the in-memory state.  The Python method
body contains no assignment to self, to any GoodtopData or to any
PortData, so the embedding returns the state component unchanged. -/
def set_poe_mem (m : Mem) (net : MutNet) (port_id : Int) (enabled : Bool) :
    Mem × (Bool × List Request) :=
  (m, set_poe m.client net port_id enabled)

/-- set_port_state as a transformer of the in-memory state; like
set_poe, the method body performs no assignment to any record. -/
def set_port_state_mem (m : Mem) (net : MutNet) (port_id : Int)
    (enabled : Bool) (speed_duplex flow_control : String) :
    Mem × (Bool × List Request) :=
  (m, set_port_state m.client net port_id enabled speed_duplex flow_control)

/-- The link predicate of GoodtopPortLinkSensor.is_on for one link
string: link.lower() different from "down" and from the empty string. -/
def linkIsUp (link : String) : Bool :=
  !(pyLower link == "down") && !(pyLower link == "")

/-- GoodtopPortLinkSensor.is_on: look the port up in the snapshot (a
dataclass instance is always truthy, a missing key gives None) and apply
the link predicate, defaulting to False. -/
def is_on (ports : Ports) (port_id : Nat) : Bool :=
  match dictGet ports port_id with
  | some p => linkIsUp p.link
  | none => false

end Goodtop

namespace Goodtop.Script

open Goodtop

/-- Decidable equality for request outcomes, used only to let concrete
script runs be evaluated by decide. -/
instance {ε α : Type} [DecidableEq ε] [DecidableEq α] :
    DecidableEq (Except ε α) := fun a b =>
  match a, b with
  | .ok x, .ok y =>
    if h : x = y then .isTrue (by rw [h]) else .isFalse (by simp [h])
  | .error x, .error y =>
    if h : x = y then .isTrue (by rw [h]) else .isFalse (by simp [h])
  | .ok _, .error _ => .isFalse (by simp)
  | .error _, .ok _ => .isFalse (by simp)

/-- Network outcomes seen by one invocation of office_switch.py: each
request either raises a RequestException carrying a message, or returns
a response.  Non-200 statuses do not raise here because the script never
calls raise_for_status. -/
structure ScriptNet where
  loginErr : Option String
  poeRes : Except String Nat
  pseSystemRes : Except String String
  psePortRes : Except String String
  statsRes : Except String String
deriving DecidableEq

/-- What one script run writes to standard output and its exit status
(falling off the end of main exits 0). -/
structure ScriptOut where
  out : List String
  exitCode : Nat
deriving DecidableEq

/-- json.dumps of a single-key error dict (default separators). -/
def jsonErr (msg : String) : String :=
  "\x7b\"error\": \"" ++ msg ++ "\"\x7d"

/-- json.dumps rendering of one port dict of get_status (the script
appends the raw, unstripped regex groups). -/
def portJson (r : RawRow) : String :=
  "\x7b\"id\": " ++ toString r.pid ++
  ", \"state\": \"" ++ (⟨r.state⟩ : String) ++
  "\", \"link\": \"" ++ (⟨r.link⟩ : String) ++
  "\", \"tx_good\": " ++ toString r.txGood ++
  ", \"tx_bad\": " ++ toString r.txBad ++
  ", \"rx_good\": " ++ toString r.rxGood ++
  ", \"rx_bad\": " ++ toString r.rxBad ++ "\x7d"

/-- Decimal digits of the fractional part of a nonnegative rational
whose denominator divides a power of ten (the values float() yields on
the wattage captures), with fuel bounding the expansion. -/
def decDigits : Nat → ℚ → List Char
  | 0, _ => []
  | fuel + 1, q =>
    if q = 0 then []
    else
      let q10 := q * 10
      let d : Int := q10.num / q10.den
      Char.ofNat (48 + d.toNat) :: decDigits fuel (q10 - (d : ℚ))

/-- Rendering of the wattage as Python prints a float (approximated by
an exact decimal expansion; claims never inspect this string, it only
appears inside the success JSON of the status path). -/
def ratRepr (q : ℚ) : String :=
  let ip : Int := q.num / q.den
  let frac := q - (ip : ℚ)
  if frac = 0 then toString ip ++ ".0"
  else toString ip ++ "." ++ (⟨decDigits 20 frac⟩ : String)

/-- json.dumps of the success dict of get_status: the ports key was
inserted first, poe_total_watts second. -/
def jsonStatus (w : ℚ) (rows : List RawRow) : String :=
  "\x7b\"ports\": [" ++ String.intercalate (", ") (rows.map portJson) ++
  "], \"poe_total_watts\": " ++ ratRepr w ++ "\x7d"

/-- The usage text printed when the arguments match neither command
shape; the script then falls off the end of main and exits 0. -/
def usageOut : ScriptOut :=
  { out := ["Usage:",
            "  office_switch.py <port> <0|1>   # toggle PoE",
            "  office_switch.py status         # show status JSON"]
    exitCode := 0 }

/-- login_session of office_switch.py: on a RequestException from the
login POST it prints a JSON error object and exits 1; any response, with
any status, lets the script continue. -/
def loginFailOut (e : String) : ScriptOut :=
  { out := [jsonErr ("Login failed: " ++ e)], exitCode := 1 }

/-- set_poe of office_switch.py: after login, POST the toggle; on a
response print a plain-text confirmation with the status code (exit 0
at the end of main), on a RequestException print a JSON error object and
exit 1. -/
def script_set_poe (net : ScriptNet) (port state : String) : ScriptOut :=
  match net.loginErr with
  | some e => loginFailOut e
  | none =>
    match net.poeRes with
    | .ok status =>
      { out := ["PoE port " ++ port ++ " set to " ++ state ++
                " (HTTP " ++ toString status ++ ")"]
        exitCode := 0 }
    | .error e =>
      { out := [jsonErr ("PoE set failed: " ++ e)], exitCode := 1 }

/-- The wattage get_status computes from the PoE-system body:
float(m.group(1)) if the regex matched else 0.0.  A ValueError from
float() on a matched but malformed group is not caught anywhere in the
script, killing it with a traceback on standard error (empty standard
output) and exit status 1; that raising outcome is the none case here.
A RequestException from any of the three page requests of get_status
replaces the data dict by an error dict, which main still prints as
JSON before exiting 0. -/
def wattsOf (body : String) : Option ℚ :=
  match searchPwr body with
  | some g => pyFloat g
  | none => some 0

/-- get_status of office_switch.py followed by the print in main of the
returned dict; the failure behaviour of each request is described on the
wattage helper above. -/
def script_status (net : ScriptNet) : ScriptOut :=
  match net.loginErr with
  | some e => loginFailOut e
  | none =>
    match net.pseSystemRes with
    | .error e => { out := [jsonErr ("Connection error: " ++ e)], exitCode := 0 }
    | .ok body1 =>
      match wattsOf body1 with
      | none => { out := [], exitCode := 1 }
      | some w =>
        match net.psePortRes with
        | .error e =>
          { out := [jsonErr ("Connection error: " ++ e)], exitCode := 0 }
        | .ok _ =>
          match net.statsRes with
          | .error e =>
            { out := [jsonErr ("Connection error: " ++ e)], exitCode := 0 }
          | .ok body2 =>
            { out := [jsonStatus w (findStatsRows body2)], exitCode := 0 }

/-- main of office_switch.py, dispatching on the user arguments
(sys.argv without the script name): two arguments toggle PoE, the single
argument status reads status, anything else prints the usage text. -/
def runScript (args : List String) (net : ScriptNet) : ScriptOut :=
  match args with
  | [port, state] => script_set_poe net port state
  | [cmd] => if cmd == "status" then script_status net else usageOut
  | _ => usageOut

end Goodtop.Script

namespace Goodtop

/-- Oracle instance with every per-port search failing, used for
concrete runs (any other choice works in the universally quantified
theorems). -/
def or0 : Oracles :=
  { speedFind := fun _ _ => none
    flowFind := fun _ _ => none
    poeEnableSeen := fun _ _ => false
    poeDisableSeen := fun _ _ => false }

/-- A statistics page body with the single well-formed row
Port 3 | Enable | 1000M | 120 | 0 | 98 | 1. -/
def row3Html : String :=
  "<tr><td>Port 3</td><td>Enable</td><td>1000M</td><td>120</td><td>0</td><td>98</td><td>1</td></tr>"

/-- A statistics page body with two well-formed rows carrying the same
port number. -/
def dupHtml : String :=
  row3Html ++ row3Html

/-- The all-failure network: every page fetch raises. -/
def netAllFail : Net :=
  { info := .fail, pse := .fail, stats := .fail,
    settings := .fail, psePorts := .fail, mac := .fail }

/-- Network where only the statistics page answers, with the single-row
fixture. -/
def netRow3 : Net :=
  { info := .fail, pse := .fail, stats := .ok 200 row3Html,
    settings := .fail, psePorts := .fail, mac := .fail }

/-- Network where only the statistics page answers, with the
duplicated-row fixture. -/
def netDup : Net :=
  { netRow3 with stats := .ok 200 dupHtml }

/-- The PortData the single-row fixture must produce for key 3. -/
def port3Expected : PortData :=
  { id := 3, state := "Enable", link := "1000M",
    tx_good := 120, tx_bad := 0, rx_good := 98, rx_bad := 1 }

end Goodtop

namespace Goodtop

/-- Did a request outcome carry status 200? -/
def is200 (res : FetchResult) : Bool :=
  (page200 res).isSome

/-- Lowercase hexadecimal digit test. -/
def isHexLowerChar (c : Char) : Bool :=
  pyIsDigit c || ('a' ≤ c && c ≤ 'f')

/-- A client as built by __init__ for the default device address. -/
def client0 : Client :=
  mkClient ("192.168.200.11") ("admin") ("")

/-- Mutation-call outcomes whose mutation POST returns 200. -/
def mutNet200 : MutNet :=
  { loginRes := .ok 200 "", postRes := .ok 200 "ok", saveRes := .fail }

/-- Mutation-call outcomes whose mutation POST raises. -/
def mutNetFail : MutNet :=
  { loginRes := .ok 200 "", postRes := .fail, saveRes := .fail }

/-- Mutation-call outcomes whose mutation POST returns 500. -/
def mutNet500 : MutNet :=
  { loginRes := .ok 200 "", postRes := .ok 500 "err", saveRes := .ok 200 "" }

/-- An in-memory state holding the client and one previously fetched
snapshot. -/
def mem0 : Mem :=
  { client := client0
    snapshot := some (get_data or0 netRow3) }

/-- A MAC-table row whose port number will not be in the mapping. -/
def macRow0 : MacRow :=
  { idx := 1, mac := ("00:E2:69:73:71:3A").data, vlan := 1000,
    typ := ("dynamic").data, port := 5 }

end Goodtop

namespace Goodtop.Script

/-- Script-run outcomes: login succeeds, the PoE-system page answers
without a wattage value, the PoE-port page answers, the statistics
request raises. -/
def cexScriptNet : ScriptNet :=
  { loginErr := none, poeRes := .ok 200, pseSystemRes := .ok "x",
    psePortRes := .ok "", statsRes := .error "connection refused" }

/-- Script-run outcomes where the login POST raises. -/
def loginFailNet : ScriptNet :=
  { loginErr := some "timeout", poeRes := .ok 200, pseSystemRes := .ok "x",
    psePortRes := .ok "", statsRes := .ok "" }

/-- Script-run outcomes where login succeeds and the PoE-toggle POST
raises. -/
def poeFailNet : ScriptNet :=
  { loginErr := none, poeRes := .error "timeout", pseSystemRes := .ok "x",
    psePortRes := .ok "", statsRes := .ok "" }

/-- Script-run outcomes where login succeeds and the PoE-system status
request raises. -/
def pseFailNet : ScriptNet :=
  { loginErr := none, poeRes := .ok 200, pseSystemRes := .error "refused",
    psePortRes := .ok "", statsRes := .ok "" }

end Goodtop.Script

namespace Goodtop

/-- Key list of the empty dict. -/
lemma dictKeys_nil : dictKeys [] = [] := rfl

/-- Key list of a cons. -/
lemma dictKeys_cons {k : Nat} {v : PortData} {t : List (Nat × PortData)} :
    dictKeys ((k, v) :: t) = k :: dictKeys t := rfl

/-- Membership via lookup agrees with membership in the key list. -/
lemma dictGet_isSome_iff {d : Ports} {a : Nat} :
    (dictGet d a).isSome = true ↔ a ∈ dictKeys d := by
  induction d with
  | nil => simp [dictGet, dictKeys_nil]
  | cons kv t ih =>
    obtain ⟨k, v⟩ := kv
    rw [dictKeys_cons]
    by_cases h : k = a
    · subst h
      simp [dictGet]
    · rw [dictGet]
      simp only [if_neg h, List.mem_cons, ih]
      constructor
      · exact Or.inr
      · rintro (rfl | hm)
        · exact absurd rfl h
        · exact hm

/-- dictMemB agrees with membership in the key list. -/
lemma dictMemB_iff {d : Ports} {a : Nat} :
    dictMemB d a = true ↔ a ∈ dictKeys d := dictGet_isSome_iff

/-- Keys after assignment: the assigned key joins the key set. -/
lemma mem_keys_dictSet {d : Ports} {k a : Nat} {v : PortData} :
    a ∈ dictKeys (dictSet d k v) ↔ a = k ∨ a ∈ dictKeys d := by
  induction d with
  | nil => simp [dictSet, dictKeys]
  | cons kv t ih =>
    obtain ⟨k', v'⟩ := kv
    rw [dictSet]
    by_cases h : k' = k
    · subst h
      rw [if_pos rfl, dictKeys_cons, dictKeys_cons]
      simp only [List.mem_cons]
      tauto
    · rw [if_neg h, dictKeys_cons, dictKeys_cons]
      simp only [List.mem_cons, ih]
      tauto

/-- Assignment to an existing key leaves the key list unchanged. -/
lemma keys_dictSet_of_mem {d : Ports} {k : Nat} {v : PortData}
    (h : k ∈ dictKeys d) : dictKeys (dictSet d k v) = dictKeys d := by
  induction d with
  | nil => simp [dictKeys_nil] at h
  | cons kv t ih =>
    obtain ⟨k', v'⟩ := kv
    rw [dictKeys_cons, List.mem_cons] at h
    rw [dictSet]
    by_cases hk : k' = k
    · rw [if_pos hk, dictKeys_cons, dictKeys_cons]
    · rw [if_neg hk, dictKeys_cons, dictKeys_cons]
      rcases h with h | h
      · exact absurd h.symm hk
      · rw [ih h]

/-- Assignment to an existing key preserves the entry count. -/
lemma length_dictSet_of_mem {d : Ports} {k : Nat} {v : PortData}
    (h : k ∈ dictKeys d) : (dictSet d k v).length = d.length := by
  induction d with
  | nil => simp [dictKeys_nil] at h
  | cons kv t ih =>
    obtain ⟨k', v'⟩ := kv
    rw [dictKeys_cons, List.mem_cons] at h
    rw [dictSet]
    by_cases hk : k' = k
    · rw [if_pos hk, List.length_cons, List.length_cons]
    · rw [if_neg hk, List.length_cons, List.length_cons]
      rcases h with h | h
      · exact absurd h.symm hk
      · rw [ih h]

/-- Assignment to a fresh key appends one entry. -/
lemma length_dictSet_of_not_mem {d : Ports} {k : Nat} {v : PortData}
    (h : k ∉ dictKeys d) : (dictSet d k v).length = d.length + 1 := by
  induction d with
  | nil => simp [dictSet]
  | cons kv t ih =>
    obtain ⟨k', v'⟩ := kv
    rw [dictKeys_cons, List.mem_cons] at h
    push_neg at h
    rw [dictSet, if_neg (fun hk => h.1 hk.symm), List.length_cons,
      List.length_cons, ih h.2]

end Goodtop

namespace Goodtop

/-- Keys after the statistics row loop: the initial keys plus the parsed
port numbers. -/
lemma mem_keys_statsFold {rows : List RawRow} :
    ∀ {dp : Ports} {a : Nat},
      a ∈ dictKeys (rows.foldl statsStep dp) ↔
        a ∈ dictKeys dp ∨ a ∈ rows.map RawRow.pid := by
  induction rows with
  | nil => simp
  | cons r rs ih =>
    intro dp a
    rw [List.foldl_cons, List.map_cons, List.mem_cons]
    rw [ih]
    show a ∈ dictKeys (dictSet dp r.pid (portOfRow r)) ∨ _ ↔ _
    rw [mem_keys_dictSet]
    tauto

/-- Entry count after the statistics row loop when the parsed port
numbers are distinct and fresh. -/
lemma length_statsFold {rows : List RawRow} :
    ∀ {dp : Ports}, (rows.map RawRow.pid).Nodup →
      (∀ k ∈ rows.map RawRow.pid, k ∉ dictKeys dp) →
      (rows.foldl statsStep dp).length = dp.length + rows.length := by
  induction rows with
  | nil => intro dp _ _; simp
  | cons r rs ih =>
    intro dp hnd hfresh
    rw [List.map_cons, List.nodup_cons] at hnd
    rw [List.foldl_cons]
    have hr : r.pid ∉ dictKeys dp := hfresh r.pid (by simp)
    have hlen : (statsStep dp r).length = dp.length + 1 :=
      length_dictSet_of_not_mem hr
    have hfresh2 : ∀ k ∈ rs.map RawRow.pid, k ∉ dictKeys (statsStep dp r) := by
      intro k hk
      show k ∉ dictKeys (dictSet dp r.pid (portOfRow r))
      rw [mem_keys_dictSet]
      push_neg
      refine ⟨?_, hfresh k (by simp [hk])⟩
      intro hkr
      exact hnd.1 (hkr ▸ hk)
    rw [ih hnd.2 hfresh2, hlen, List.length_cons]
    omega

/-- Key preservation for a per-entry map that keeps the first
component. -/
lemma dictKeys_map (f : Nat × PortData → Nat × PortData)
    (hf : ∀ kv, (f kv).1 = kv.1) {dp : Ports} :
    dictKeys (dp.map f) = dictKeys dp := by
  induction dp with
  | nil => rfl
  | cons kv t ih =>
    obtain ⟨k, v⟩ := kv
    have h1 : f (k, v) = ((f (k, v)).1, (f (k, v)).2) := rfl
    rw [List.map_cons]
    show dictKeys (f (k, v) :: t.map f) = dictKeys ((k, v) :: t)
    rw [h1, dictKeys_cons, dictKeys_cons, hf (k, v), ih]

/-- One MAC-row step never changes the key list. -/
lemma dictKeys_macStep {dp : Ports} {row : MacRow} :
    dictKeys (macStep dp row) = dictKeys dp := by
  cases h : dictGet dp row.port with
  | none => simp only [macStep, h]
  | some p =>
    have hm : row.port ∈ dictKeys dp := by
      rw [← dictGet_isSome_iff, h]
      rfl
    simp only [macStep, h]
    split
    · rfl
    · exact keys_dictSet_of_mem hm

/-- One MAC-row step never changes the entry count. -/
lemma length_macStep {dp : Ports} {row : MacRow} :
    (macStep dp row).length = dp.length := by
  cases h : dictGet dp row.port with
  | none => simp only [macStep, h]
  | some p =>
    have hm : row.port ∈ dictKeys dp := by
      rw [← dictGet_isSome_iff, h]
      rfl
    simp only [macStep, h]
    split
    · rfl
    · exact length_dictSet_of_mem hm

/-- The MAC-table row loop never changes the key list. -/
lemma dictKeys_macFold {rows : List MacRow} :
    ∀ {dp : Ports}, dictKeys (rows.foldl macStep dp) = dictKeys dp := by
  induction rows with
  | nil => intro dp; rfl
  | cons r rs ih =>
    intro dp
    rw [List.foldl_cons, ih, dictKeys_macStep]

/-- The MAC-table row loop never changes the entry count. -/
lemma length_macFold {rows : List MacRow} :
    ∀ {dp : Ports}, (rows.foldl macStep dp).length = dp.length := by
  induction rows with
  | nil => intro dp; rfl
  | cons r rs ih =>
    intro dp
    rw [List.foldl_cons, ih, length_macStep]

end Goodtop

namespace Goodtop

/-- _fetch_system_info never touches the ports mapping. -/
lemma ports_fetch_system_info {res : FetchResult} {d : GoodtopData} :
    (fetch_system_info res d).ports = d.ports := by
  cases h : page200 res <;> simp [fetch_system_info, h]

/-- _fetch_system_info never touches the wattage. -/
lemma poe_fetch_system_info {res : FetchResult} {d : GoodtopData} :
    (fetch_system_info res d).poe_total_watts = d.poe_total_watts := by
  cases h : page200 res <;> simp [fetch_system_info, h]

/-- _fetch_poe_system never touches the ports mapping. -/
lemma ports_fetch_poe_system {res : FetchResult} {d : GoodtopData} :
    (fetch_poe_system res d).ports = d.ports := by
  cases h : pseYields res <;> simp [fetch_poe_system, h]

/-- When the PoE-system fetch yields no value the snapshot is
unchanged. -/
lemma fetch_poe_system_none {res : FetchResult} {d : GoodtopData}
    (h : pseYields res = none) : fetch_poe_system res d = d := by
  simp [fetch_poe_system, h]

/-- The ports mapping after _fetch_port_stats is the row fold over the
previous mapping. -/
lemma ports_fetch_port_stats {res : FetchResult} {d : GoodtopData} :
    (fetch_port_stats res d).ports = (statsRowsOf res).foldl statsStep d.ports := by
  cases h : page200 res <;> simp [fetch_port_stats, statsRowsOf, h]

/-- _fetch_port_stats never touches the wattage. -/
lemma poe_fetch_port_stats {res : FetchResult} {d : GoodtopData} :
    (fetch_port_stats res d).poe_total_watts = d.poe_total_watts := by
  cases h : page200 res <;> simp [fetch_port_stats, h]

/-- _fetch_port_settings keeps the key list of the ports mapping. -/
lemma keys_fetch_port_settings {or : Oracles} {res : FetchResult}
    {d : GoodtopData} :
    dictKeys (fetch_port_settings or res d).ports = dictKeys d.ports := by
  cases h : page200 res with
  | none => simp [fetch_port_settings, h]
  | some html =>
    simp only [fetch_port_settings, h]
    exact dictKeys_map (settingsUpd or html) (fun kv => rfl)

/-- _fetch_port_settings keeps the entry count of the ports mapping. -/
lemma length_fetch_port_settings {or : Oracles} {res : FetchResult}
    {d : GoodtopData} :
    (fetch_port_settings or res d).ports.length = d.ports.length := by
  cases h : page200 res <;> simp [fetch_port_settings, h]

/-- _fetch_port_settings never touches the wattage. -/
lemma poe_fetch_port_settings {or : Oracles} {res : FetchResult}
    {d : GoodtopData} :
    (fetch_port_settings or res d).poe_total_watts = d.poe_total_watts := by
  cases h : page200 res <;> simp [fetch_port_settings, h]

/-- _fetch_poe_ports keeps the key list of the ports mapping. -/
lemma keys_fetch_poe_ports {or : Oracles} {res : FetchResult}
    {d : GoodtopData} :
    dictKeys (fetch_poe_ports or res d).ports = dictKeys d.ports := by
  cases h : page200 res with
  | none => simp [fetch_poe_ports, h]
  | some html =>
    simp only [fetch_poe_ports, h]
    exact dictKeys_map (poeUpd or html) (fun kv => rfl)

/-- _fetch_poe_ports keeps the entry count of the ports mapping. -/
lemma length_fetch_poe_ports {or : Oracles} {res : FetchResult}
    {d : GoodtopData} :
    (fetch_poe_ports or res d).ports.length = d.ports.length := by
  cases h : page200 res <;> simp [fetch_poe_ports, h]

/-- _fetch_poe_ports never touches the wattage. -/
lemma poe_fetch_poe_ports {or : Oracles} {res : FetchResult}
    {d : GoodtopData} :
    (fetch_poe_ports or res d).poe_total_watts = d.poe_total_watts := by
  cases h : page200 res <;> simp [fetch_poe_ports, h]

/-- _fetch_mac_table keeps the key list of the ports mapping. -/
lemma keys_fetch_mac_table {res : FetchResult} {d : GoodtopData} :
    dictKeys (fetch_mac_table res d).ports = dictKeys d.ports := by
  cases h : page200 res with
  | none => simp [fetch_mac_table, h]
  | some html =>
    simp only [fetch_mac_table, h]
    exact dictKeys_macFold

/-- _fetch_mac_table keeps the entry count of the ports mapping. -/
lemma length_fetch_mac_table {res : FetchResult} {d : GoodtopData} :
    (fetch_mac_table res d).ports.length = d.ports.length := by
  cases h : page200 res with
  | none => simp [fetch_mac_table, h]
  | some html =>
    simp only [fetch_mac_table, h]
    exact length_macFold

/-- _fetch_mac_table never touches the wattage. -/
lemma poe_fetch_mac_table {res : FetchResult} {d : GoodtopData} :
    (fetch_mac_table res d).poe_total_watts = d.poe_total_watts := by
  cases h : page200 res <;> simp [fetch_mac_table, h]

/-- Key membership in the final snapshot is row membership on the
statistics page. -/
lemma get_data_keys {or : Oracles} {net : Net} {a : Nat} :
    a ∈ dictKeys (get_data or net).ports ↔ a ∈ statsPidsOf net.stats := by
  rw [get_data]
  rw [keys_fetch_mac_table, keys_fetch_poe_ports, keys_fetch_port_settings,
    ports_fetch_port_stats, mem_keys_statsFold, ports_fetch_poe_system,
    ports_fetch_system_info]
  show a ∈ dictKeys [] ∨ _ ↔ _
  rw [dictKeys_nil]
  simp [statsPidsOf]

/-- Entry count of the final snapshot under distinct parsed port
numbers. -/
lemma get_data_length {or : Oracles} {net : Net}
    (h : (statsPidsOf net.stats).Nodup) :
    dictSize (get_data or net).ports = (statsRowsOf net.stats).length := by
  rw [get_data, dictSize]
  rw [length_fetch_mac_table, length_fetch_poe_ports,
    length_fetch_port_settings, ports_fetch_port_stats,
    ports_fetch_poe_system, ports_fetch_system_info]
  show ((statsRowsOf net.stats).foldl statsStep []).length = _
  rw [length_statsFold h (by simp [dictKeys_nil]), List.length_nil]
  simp [statsPidsOf]

/-- The wattage of the final snapshot stays at its default when the
PoE-system page yields nothing. -/
lemma get_data_poe_none {or : Oracles} {net : Net}
    (h : pseYields net.pse = none) :
    (get_data or net).poe_total_watts = 0 := by
  rw [get_data]
  rw [poe_fetch_mac_table, poe_fetch_poe_ports, poe_fetch_port_settings,
    poe_fetch_port_stats, fetch_poe_system_none h, poe_fetch_system_info]
  rfl

end Goodtop

namespace Goodtop

/-- Every little-endian word byte is below 256. -/
lemma wordLE_lt {w : Nat} : ∀ b ∈ MD5.wordLE w, b < 256 := by
  intro b hb
  simp only [MD5.wordLE, List.mem_cons, List.not_mem_nil, or_false] at hb
  rcases hb with h | h | h | h <;> subst h <;> omega

/-- Every digest byte is below 256. -/
lemma digest_lt {msg : List Nat} : ∀ b ∈ MD5.digest msg, b < 256 := by
  intro b hb
  simp only [MD5.digest, List.mem_append] at hb
  rcases hb with ((h | h) | h) | h <;> exact wordLE_lt b h

/-- The digest always has 16 bytes. -/
lemma digest_length {msg : List Nat} : (MD5.digest msg).length = 16 := by
  simp [MD5.digest, MD5.wordLE]

/-- Flattening into hex pairs doubles the length. -/
lemma flat2_length (l : List Nat) :
    (l.flatMap fun b => [MD5.hexDigit (b / 16), MD5.hexDigit (b % 16)]).length =
      2 * l.length := by
  induction l with
  | nil => rfl
  | cons b t ih =>
    rw [List.flatMap_cons, List.length_append, ih, List.length_cons]
    simp
    omega

/-- The hex digit of a value below 16 is a lowercase hex character. -/
lemma hexDigit_hex {n : Nat} (h : n < 16) :
    isHexLowerChar (MD5.hexDigit n) = true := by
  interval_cases n <;> decide

/-- Hex pairs of bytes below 256 are all lowercase hex characters. -/
lemma flat2_hex {l : List Nat} (hb : ∀ b ∈ l, b < 256) :
    ((l.flatMap fun b => [MD5.hexDigit (b / 16), MD5.hexDigit (b % 16)]).all
      isHexLowerChar) = true := by
  induction l with
  | nil => rfl
  | cons b t ih =>
    rw [List.flatMap_cons, List.all_append]
    have hblt : b < 256 := hb b (by simp)
    have h1 : b / 16 < 16 := by omega
    have h2 : b % 16 < 16 := by omega
    simp only [List.all_cons, List.all_nil, hexDigit_hex h1, hexDigit_hex h2,
      Bool.and_true, Bool.true_and]
    exact ih fun x hx => hb x (by simp [hx])

/-- The hexdigest always has 32 characters. -/
lemma hexdigest_length {msg : List Nat} : (MD5.hexdigest msg).length = 32 := by
  show ((MD5.digest msg).flatMap fun b =>
    [MD5.hexDigit (b / 16), MD5.hexDigit (b % 16)]).length = 32
  rw [flat2_length, digest_length]

/-- The hexdigest is entirely lowercase hex characters. -/
lemma hexdigest_hex {msg : List Nat} :
    (MD5.hexdigest msg).data.all isHexLowerChar = true := by
  show (((MD5.digest msg).flatMap fun b =>
    [MD5.hexDigit (b / 16), MD5.hexDigit (b % 16)]).all isHexLowerChar) = true
  exact flat2_hex digest_lt

/-- UTF-8 encoding distributes over string concatenation. -/
lemma strBytes_append (u p : String) :
    strBytes (u ++ p) = strBytes u ++ strBytes p := by
  unfold strBytes
  rw [String.data_append, List.flatMap_append]

end Goodtop

namespace Goodtop

/-- Lower-casing never changes emptiness. -/
lemma pyLower_eq_empty {s : String} : pyLower s = "" ↔ s = "" := by
  cases s with
  | mk l =>
    show (⟨l.map asciiLower⟩ : String) = ⟨[]⟩ ↔ (⟨l⟩ : String) = ⟨[]⟩
    simp [String.ext_iff, List.map_eq_nil_iff]

end Goodtop


namespace Goodtop

set_option maxRecDepth 40000 in
/-- C1: as stated the claim fails on its K-entry count: a statistics
page can contain two well-formed rows for the same port number, and the
dict assignment then overwrites, leaving one entry for two rows.  The
duplicated-row fixture yields the parsed port numbers [3, 3] (two
well-formed rows) but a final mapping with a single entry. -/
theorem C1_counterexample :
    statsPidsOf netDup.stats = [3, 3] ∧
    (statsRowsOf netDup.stats).length = 2 ∧
    dictSize (get_data or0 netDup).ports = 1 := by
  exact ⟨by decide, by decide, by decide⟩

/-- C1 (amended): a PortRecord for port N exists in the final mapping
iff the statistics page yielded a well-formed row for port N; when the
parsed port numbers are pairwise distinct a fixture with K well-formed
rows gives exactly K entries; and every enrichment step keeps the key
set and is a no-op on absent port numbers. -/
theorem C1_amended : ∀ (or : Oracles) (net : Net),
    (∀ N, dictMemB (get_data or net).ports N = true ↔ N ∈ statsPidsOf net.stats) ∧
    ((statsPidsOf net.stats).Nodup →
      dictSize (get_data or net).ports = (statsRowsOf net.stats).length) ∧
    (∀ res d, dictKeys (fetch_port_settings or res d).ports = dictKeys d.ports) ∧
    (∀ res d, dictKeys (fetch_poe_ports or res d).ports = dictKeys d.ports) ∧
    (∀ res d, dictKeys (fetch_mac_table res d).ports = dictKeys d.ports) ∧
    (∀ dp row, dictMemB dp row.port = false → macStep dp row = dp) := by
  intro or net
  refine ⟨?_, get_data_length, fun res d => keys_fetch_port_settings,
    fun res d => keys_fetch_poe_ports, fun res d => keys_fetch_mac_table, ?_⟩
  · intro N
    rw [dictMemB_iff, get_data_keys]
  · intro dp row h
    have hg : dictGet dp row.port = none := by
      cases hx : dictGet dp row.port with
      | none => rfl
      | some p =>
        rw [dictMemB, hx] at h
        simp at h
    simp [macStep, hg]

set_option maxRecDepth 40000 in
/-- C1 witness: the amended statement evaluated on the single-row
fixture and on a MAC row for an absent port. -/
theorem C1_witness :
    dictSize (get_data or0 netRow3).ports = (statsRowsOf netRow3.stats).length ∧
    (dictMemB (get_data or0 netRow3).ports 3 = true ↔ 3 ∈ statsPidsOf netRow3.stats) ∧
    macStep [] macRow0 = [] := by
  exact ⟨(C1_amended or0 netRow3).2.1 (by decide),
         (C1_amended or0 netRow3).1 3,
         (C1_amended or0 netRow3).2.2.2.2.2 [] macRow0 (by decide)⟩

/-- C3: get_data is total over every combination of page outcomes (it
is a function here, with no raising path); when the PoE-system page
yields nothing (transport failure, non-200 status, missing pattern or a
float() failure) the wattage stays at its default 0.0 while the ports
mapping is still exactly the one of the statistics page; when every
page fails the all-default snapshot is returned. -/
theorem C3_partial_failure : ∀ (or : Oracles) (net : Net),
    (pseYields net.pse = none →
      (get_data or net).poe_total_watts = 0 ∧
      ∀ N, (dictMemB (get_data or net).ports N = true ↔ N ∈ statsPidsOf net.stats)) ∧
    (net.info = FetchResult.fail → net.pse = FetchResult.fail →
     net.stats = FetchResult.fail → net.settings = FetchResult.fail →
     net.psePorts = FetchResult.fail → net.mac = FetchResult.fail →
     get_data or net = GoodtopData.init) := by
  intro or net
  constructor
  · intro h
    refine ⟨get_data_poe_none h, fun N => ?_⟩
    rw [dictMemB_iff, get_data_keys]
  · intro h1 h2 h3 h4 h5 h6
    simp only [get_data, h1, h2, h3, h4, h5, h6]
    rfl

set_option maxRecDepth 40000 in
/-- C3 witness: the theorem evaluated on the PoE-failing single-row
network and on the all-failure network. -/
theorem C3_witness :
    (get_data or0 netRow3).poe_total_watts = 0 ∧
    (dictMemB (get_data or0 netRow3).ports 3 = true ↔ 3 ∈ statsPidsOf netRow3.stats) ∧
    get_data or0 netAllFail = GoodtopData.init := by
  refine ⟨((C3_partial_failure or0 netRow3).1 (by decide)).1,
          ((C3_partial_failure or0 netRow3).1 (by decide)).2 3,
          (C3_partial_failure or0 netAllFail).2 rfl rfl rfl rfl rfl rfl⟩

set_option maxRecDepth 40000 in
/-- C7: the single-row fixture Port 3 | Enable | 1000M | 120 | 0 | 98 |
1 parses to exactly the expected PortData at key 3 (all other fields at
their defaults) and the derived link predicate holds on it. -/
theorem C7_example_row :
    dictGet (get_data or0 netRow3).ports 3 = some port3Expected ∧
    is_on (get_data or0 netRow3).ports 3 = true ∧
    linkIsUp ("1000M") = true := by
  exact ⟨by decide, by decide, by decide⟩

end Goodtop

namespace Goodtop

set_option maxRecDepth 40000 in
/-- C2: the session token is the lowercase hexadecimal rendering of the
128-bit MD5 digest of the UTF-8 bytes of username concatenated with
password (no separator): the cookie equals the hexdigest of the
concatenated byte strings, it always has 32 lowercase hex characters,
it is a pure function (trivially reflexive here), and on the default
credentials admin with empty password it is the well-known MD5 value of
the string admin. -/
theorem C2_token_derivation : ∀ (username password : String),
    generate_cookie username password =
      MD5.hexdigest (strBytes username ++ strBytes password) ∧
    (generate_cookie username password).length = 32 ∧
    (generate_cookie username password).data.all isHexLowerChar = true ∧
    generate_cookie username password = generate_cookie username password ∧
    generate_cookie ("admin") ("") = "21232f297a57a5a743894a0e4a801fc3" := by
  intro u p
  refine ⟨?_, hexdigest_length, hexdigest_hex, rfl, by decide⟩
  rw [generate_cookie, strBytes_append]

/-- C6: the derived link predicate is true exactly when the link
string, compared case-insensitively, is non-empty and differs from
down; in particular Up and the speed string 1000M are up while Down and
the empty string are down. -/
theorem C6_link_predicate : ∀ (link : String),
    (linkIsUp link = true ↔ (link ≠ "" ∧ pyLower link ≠ pyLower ("down"))) ∧
    linkIsUp ("Up") = true ∧ linkIsUp ("1000M") = true ∧
    linkIsUp ("Down") = false ∧ linkIsUp ("") = false := by
  intro link
  refine ⟨?_, by decide, by decide, by decide, by decide⟩
  rw [linkIsUp]
  have hd : pyLower ("down") = "down" := rfl
  rw [hd]
  simp only [Bool.and_eq_true, Bool.not_eq_true', beq_eq_false_iff_ne, ne_eq]
  constructor
  · rintro ⟨h1, h2⟩
    refine ⟨fun he => h2 ?_, h1⟩
    rw [he]
    rfl
  · rintro ⟨h1, h2⟩
    exact ⟨h2, fun he => h1 (pyLower_eq_empty.mp he)⟩

/-- C6 witness: the characterisation applied to the speed string. -/
theorem C6_witness : linkIsUp ("1000M") = true :=
  (C6_link_predicate ("1000M")).1.mpr (by decide)

/-- C9: a mutation call never updates any in-memory record: the client
fields and any previously fetched snapshot are returned unchanged (the
method bodies contain no assignment), in particular on the successful
path. -/
theorem C9_frame : ∀ (m : Mem) (net : MutNet) (p : Int) (en : Bool)
    (sd fc : String),
    ((set_poe_mem m net p en).2.1 = true → (set_poe_mem m net p en).1 = m) ∧
    ((set_port_state_mem m net p en sd fc).2.1 = true →
      (set_port_state_mem m net p en sd fc).1 = m) := by
  intro m net p en sd fc
  exact ⟨fun _ => rfl, fun _ => rfl⟩

/-- C9 witness: a successful PoE mutation on a concrete state leaves
the state unchanged. -/
theorem C9_witness :
    (set_poe_mem mem0 mutNet200 1 true).2.1 = true ∧
    (set_poe_mem mem0 mutNet200 1 true).1 = mem0 ∧
    (set_port_state_mem mem0 mutNet200 2 false ("0") ("0")).2.1 = true ∧
    (set_port_state_mem mem0 mutNet200 2 false ("0") ("0")).1 = mem0 := by
  refine ⟨rfl, (C9_frame mem0 mutNet200 1 true ("0") ("0")).1 rfl,
          rfl, (C9_frame mem0 mutNet200 2 false ("0") ("0")).2 rfl⟩

/-- C10: test_connection is true exactly on a 200 response whose body
contains Device Model or MAC Address as a substring; any other status
and any exception give false (the embedding is a total function, there
is no raising path). -/
theorem C10_test_connection : ∀ (res : FetchResult),
    (test_connection res = true ↔
      ∃ b, res = FetchResult.ok 200 b ∧
        (hasSub b.data (("Device Model").data) = true ∨
         hasSub b.data (("MAC Address").data) = true)) ∧
    test_connection FetchResult.fail = false ∧
    (∀ s b, s ≠ 200 → test_connection (FetchResult.ok s b) = false) := by
  intro res
  refine ⟨?_, rfl, ?_⟩
  · cases res with
    | fail =>
      simp [test_connection, page200]
    | ok s b =>
      by_cases hs : s = 200
      · subst hs
        simp [test_connection, page200, Bool.or_eq_true]
      · simp [test_connection, page200, hs]
  · intro s b hs
    simp [test_connection, page200, hs]

/-- C10 witness: a 404 with a matching body is false, a 200 with the
Device Model marker is true, and an exception is false. -/
theorem C10_witness :
    test_connection (FetchResult.ok 404 ("Device Model")) = false ∧
    test_connection (FetchResult.ok 200 ("x Device Model y")) = true ∧
    test_connection FetchResult.fail = false := by
  refine ⟨(C10_test_connection (FetchResult.ok 404 ("Device Model"))).2.2 404
            ("Device Model") (by decide),
          (C10_test_connection (FetchResult.ok 200 ("x Device Model y"))).1.mpr
            ⟨("x Device Model y"), rfl, Or.inl (by decide)⟩,
          (C10_test_connection FetchResult.fail).2.1⟩

end Goodtop

namespace Goodtop

/-- C4: for both mutation calls, a 200 on the mutation POST yields
result true and exactly one save POST in the trace; any other status or
a transport failure yields false and no save POST. -/
theorem C4_save_on_success : ∀ (c : Client) (net : MutNet) (p : Int)
    (en : Bool) (sd fc : String),
    (is200 net.postRes = true →
      (set_poe c net p en).1 = true ∧
      countSaves (set_poe c net p en).2 = 1 ∧
      (set_port_state c net p en sd fc).1 = true ∧
      countSaves (set_port_state c net p en sd fc).2 = 1) ∧
    (is200 net.postRes = false →
      (set_poe c net p en).1 = false ∧
      countSaves (set_poe c net p en).2 = 0 ∧
      (set_port_state c net p en sd fc).1 = false ∧
      countSaves (set_port_state c net p en sd fc).2 = 0) := by
  intro c net p en sd fc
  constructor
  · intro h
    rw [is200] at h
    obtain ⟨b, hb⟩ := Option.isSome_iff_exists.mp h
    refine ⟨?_, ?_, ?_, ?_⟩ <;> simp only [set_poe, set_port_state, hb, countSaves] <;> trivial
  · intro h
    rw [is200] at h
    have hb : page200 net.postRes = none := by
      cases hg : page200 net.postRes with
      | none => rfl
      | some b =>
        rw [hg] at h
        simp at h
    refine ⟨?_, ?_, ?_, ?_⟩ <;> simp only [set_poe, set_port_state, hb, countSaves] <;> trivial

/-- C4 witness: the theorem evaluated on a 200 outcome and on a raising
outcome, for a concrete client. -/
theorem C4_witness :
    ((set_poe client0 mutNet200 1 true).1 = true ∧
      countSaves (set_poe client0 mutNet200 1 true).2 = 1) ∧
    ((set_poe client0 mutNetFail 1 true).1 = false ∧
      countSaves (set_poe client0 mutNetFail 1 true).2 = 0) ∧
    ((set_port_state client0 mutNet500 1 true ("0") ("0")).1 = false ∧
      countSaves (set_port_state client0 mutNet500 1 true ("0") ("0")).2 = 0) := by
  have h200 := (C4_save_on_success client0 mutNet200 1 true ("0") ("0")).1 rfl
  have hfail := (C4_save_on_success client0 mutNetFail 1 true ("0") ("0")).2 rfl
  have h500 := (C4_save_on_success client0 mutNet500 1 true ("0") ("0")).2 rfl
  exact ⟨⟨h200.1, h200.2.1⟩, ⟨hfail.1, hfail.2.1⟩, ⟨h500.2.2.1, h500.2.2.2⟩⟩

/-- C5: every mutation POST carries portid equal to the decimal string
of the caller-facing port number minus one; in particular port 1 gives
0 and port 8 gives 7 in both form builders. -/
theorem C5_port_translation : ∀ (c : Client) (net : MutNet) (p : Int)
    (en : Bool) (sd fc : String),
    (∀ r ∈ (set_poe c net p en).2, r.path = ("/pse_port.cgi") →
      fieldVal r.body ("portid") = some (toString (p - 1))) ∧
    (∀ r ∈ (set_port_state c net p en sd fc).2, r.path = ("/port.cgi") →
      fieldVal r.body ("portid") = some (toString (p - 1))) ∧
    fieldVal (set_poe_body 1 en) ("portid") = some ("0") ∧
    fieldVal (set_poe_body 8 en) ("portid") = some ("7") ∧
    fieldVal (set_port_state_body 1 en sd fc) ("portid") = some ("0") ∧
    fieldVal (set_port_state_body 8 en sd fc) ("portid") = some ("7") := by
  intro c net p en sd fc
  have hlogin : ¬ (("/login.cgi" : String) = "/pse_port.cgi") := by decide
  have hsave : ¬ (("/save.cgi" : String) = "/pse_port.cgi") := by decide
  have hlogin2 : ¬ (("/login.cgi" : String) = "/port.cgi") := by decide
  have hsave2 : ¬ (("/save.cgi" : String) = "/port.cgi") := by decide
  refine ⟨?_, ?_, rfl, rfl, rfl, rfl⟩
  · intro r hr hpath
    cases hb : page200 net.postRes <;>
      simp only [set_poe, hb, List.mem_append, List.mem_cons,
        List.not_mem_nil, or_false] at hr
    · rcases hr with rfl | rfl
      · exact absurd hpath hlogin
      · rfl
    · rcases hr with (rfl | rfl) | rfl
      · exact absurd hpath hlogin
      · rfl
      · exact absurd hpath hsave
  · intro r hr hpath
    cases hb : page200 net.postRes <;>
      simp only [set_port_state, hb, List.mem_append, List.mem_cons,
        List.not_mem_nil, or_false] at hr
    · rcases hr with rfl | rfl
      · exact absurd hpath hlogin2
      · rfl
    · rcases hr with (rfl | rfl) | rfl
      · exact absurd hpath hlogin2
      · rfl
      · exact absurd hpath hsave2

/-- C5 witness: the trace-level statement applied to the concrete
mutation requests for ports 1 and 8. -/
theorem C5_witness :
    fieldVal (Request.mk client0.host ("/pse_port.cgi") (set_poe_body 1 true)).body
      ("portid") = some (toString ((1 : Int) - 1)) ∧
    fieldVal (Request.mk client0.host ("/port.cgi")
        (set_port_state_body 8 false ("0") ("0"))).body
      ("portid") = some (toString ((8 : Int) - 1)) := by
  constructor
  · exact (C5_port_translation client0 mutNet200 1 true ("0") ("0")).1
      (Request.mk client0.host ("/pse_port.cgi") (set_poe_body 1 true))
      (by simp [set_poe, mutNet200, page200]) rfl
  · exact (C5_port_translation client0 mutNet200 8 false ("0") ("0")).2.1
      (Request.mk client0.host ("/port.cgi") (set_port_state_body 8 false ("0") ("0")))
      (by simp [set_port_state, mutNet200, page200]) rfl

end Goodtop

namespace Goodtop

/-- C8: as stated the claim fails on the status path: a transport
failure during the statistics request after a successful login makes
get_status swallow the RequestException into an error dict, which main
prints as JSON before falling off the end, so the exit status is 0, not
non-zero. -/
theorem C8_counterexample :
    Script.cexScriptNet.statsRes = Except.error ("connection refused") ∧
    Script.runScript [("status")] Script.cexScriptNet =
      { out := [Script.jsonErr ("Connection error: connection refused")],
        exitCode := 0 } := by
  exact ⟨rfl, by decide⟩

/-- C8 (amended): the script prints a JSON object and exits 1 when the
transport failure hits the login POST (both paths) or the PoE-toggle
POST; a transport failure during any of the three status-path page
requests after a successful login instead prints a JSON object carrying
an error key and exits 0. -/
theorem C8_amended : ∀ (net : Script.ScriptNet) (port st e : String),
    (net.loginErr = some e →
      Script.runScript [port, st] net = Script.loginFailOut e ∧
      Script.runScript [("status")] net = Script.loginFailOut e) ∧
    (net.loginErr = none → net.poeRes = Except.error e →
      Script.runScript [port, st] net =
        { out := [Script.jsonErr ("PoE set failed: " ++ e)], exitCode := 1 }) ∧
    (net.loginErr = none → net.pseSystemRes = Except.error e →
      Script.runScript [("status")] net =
        { out := [Script.jsonErr ("Connection error: " ++ e)], exitCode := 0 }) ∧
    (net.loginErr = none → ∀ b1 w, net.pseSystemRes = Except.ok b1 →
      Script.wattsOf b1 = some w → net.psePortRes = Except.error e →
      Script.runScript [("status")] net =
        { out := [Script.jsonErr ("Connection error: " ++ e)], exitCode := 0 }) ∧
    (net.loginErr = none → ∀ b1 w b2, net.pseSystemRes = Except.ok b1 →
      Script.wattsOf b1 = some w → net.psePortRes = Except.ok b2 →
      net.statsRes = Except.error e →
      Script.runScript [("status")] net =
        { out := [Script.jsonErr ("Connection error: " ++ e)], exitCode := 0 }) := by
  intro net port st e
  refine ⟨?_, ?_, ?_, ?_, ?_⟩
  · intro h
    constructor <;>
      simp [Script.runScript, Script.script_set_poe, Script.script_status, h]
  · intro h1 h2
    simp [Script.runScript, Script.script_set_poe, h1, h2]
  · intro h1 h2
    simp [Script.runScript, Script.script_status, h1, h2]
  · intro h1 b1 w h2 hw h3
    simp [Script.runScript, Script.script_status, h1, h2, hw, h3]
  · intro h1 b1 w b2 h2 hw h3 h4
    simp [Script.runScript, Script.script_status, h1, h2, hw, h3, h4]

/-- C8 witness: the amended statement evaluated on concrete outcomes
for a failing login, a failing PoE toggle and a failing status
request. -/
theorem C8_witness :
    Script.runScript [("5"), ("1")] Script.loginFailNet =
      Script.loginFailOut ("timeout") ∧
    Script.runScript [("status")] Script.loginFailNet =
      Script.loginFailOut ("timeout") ∧
    Script.runScript [("5"), ("1")] Script.poeFailNet =
      { out := [Script.jsonErr ("PoE set failed: timeout")], exitCode := 1 } ∧
    Script.runScript [("status")] Script.pseFailNet =
      { out := [Script.jsonErr ("Connection error: refused")], exitCode := 0 } := by
  have hl := (C8_amended Script.loginFailNet ("5") ("1") ("timeout")).1 rfl
  refine ⟨hl.1, hl.2,
    (C8_amended Script.poeFailNet ("5") ("1") ("timeout")).2.1 rfl rfl,
    (C8_amended Script.pseFailNet ("5") ("1") ("refused")).2.2.1 rfl rfl⟩

end Goodtop
